import Mathlib

set_option maxHeartbeats 1000000
set_option maxRecDepth 16384

attribute [local semireducible] Rat.add Rat.sub Rat.mul Rat.inv Rat.ofScientific

/-!
Verification of the BME280 Aircon Monitor data pipeline against its
specification.  The definitions below are a shallow embedding of
`graph/environmental_plotter.py` and `graph/plot_canvas.py`.

Modelling conventions:
* Python floats are modelled as exact rationals (ℚ).  IEEE rounding, the
  non-finite literals accepted by `float` ("inf", "nan", ...) and PEP 515
  underscore separators in numeric literals are outside the rational model;
  no theorem below depends on such inputs.
* Timestamps are minutes since 1970-01-01 00:00 (ℤ), through the standard
  civil-calendar conversion; `datetime.strptime` / `strftime` with the two
  formats used by the program are modelled character by character.
* The Python expression `x ** 0.5` (the only irrational operation, reachable
  in one branch of `calculate_heat_index`) is modelled by a parameter
  `sq : ℚ → ℚ`; every theorem is proved for all `sq`.
* pandas DataFrames produced by this program are modelled as a list of rows
  plus an index (the list of row labels): `pd.concat(..., ignore_index=True)`
  yields the identity index and `sort_values` permutes the rows keeping their
  labels, which is exactly what the `idxmin` / `iloc` combination in
  `on_hover` observes.
-/

/-- Strip leading and trailing whitespace from a character list
(Python `str.strip()`). -/
def trimChars (cs : List Char) : List Char :=
  ((cs.dropWhile Char.isWhitespace).reverse.dropWhile Char.isWhitespace).reverse

/-- Python `s.strip()`. -/
def pyStrip (s : String) : String := String.mk (trimChars s.data)

/-- Split a character list on a separator character, keeping empty pieces
(Python `str.split(sep)` with a one-character separator). -/
def splitCharsAux (sep : Char) : List Char → List Char → List (List Char)
  | [], acc => [acc.reverse]
  | c :: cs, acc =>
    if c = sep then acc.reverse :: splitCharsAux sep cs []
    else splitCharsAux sep cs (c :: acc)

/-- Python `s.split(sep)` with a one-character separator. -/
def pySplit (s : String) (sep : Char) : List String :=
  (splitCharsAux sep s.data []).map String.mk

/-- Prefix test on character lists. -/
def startsWithChars : List Char → List Char → Bool
  | _, [] => true
  | [], _ :: _ => false
  | c :: cs, p :: ps => c = p && startsWithChars cs ps

/-- Python `s.startswith(pre)`. -/
def pyStartsWith (s pre : String) : Bool := startsWithChars s.data pre.data

/-- ASCII uppercase of one character. -/
def upChar (c : Char) : Char :=
  if 97 ≤ c.toNat ∧ c.toNat ≤ 122 then Char.ofNat (c.toNat - 32) else c

/-- Python `s.upper()` (the data here is ASCII). -/
def pyUpper (s : String) : String := String.mk (s.data.map upChar)

/-- Value of a list of decimal digit characters; `none` if the list is empty
or contains a non-digit. -/
def parseDigits (cs : List Char) : Option ℕ :=
  if cs ≠ [] ∧ cs.all Char.isDigit then
    some (cs.foldl (fun a c => a * 10 + (c.toNat - 48)) 0)
  else none

/-- Python `int(s)`: optional surrounding whitespace, optional sign, decimal
digits. -/
def pyInt (s : String) : Option ℤ :=
  match trimChars s.data with
  | '+' :: cs => (parseDigits cs).map (fun n => (n : ℤ))
  | '-' :: cs => (parseDigits cs).map (fun n => -(n : ℤ))
  | cs => (parseDigits cs).map (fun n => (n : ℤ))

/-- Split a character list at the first character satisfying `p`: the prefix
before it and, when found, the remainder after it. -/
def splitAtChar (p : Char → Bool) : List Char → List Char × Option (List Char)
  | [] => ([], none)
  | c :: cs =>
    if p c then ([], some cs)
    else
      let r := splitAtChar p cs
      (c :: r.1, r.2)

/-- Decimal mantissa of a Python float literal: `digits`, `digits.`,
`digits.digits` or `.digits`. -/
def parseMantissa (cs : List Char) : Option ℚ :=
  let s := splitAtChar (fun c => c == '.') cs
  match s.2 with
  | none => (parseDigits cs).map (fun n => (n : ℚ))
  | some fp =>
    if (s.1 = [] ∧ fp = []) ∨ ¬ s.1.all Char.isDigit ∨ ¬ fp.all Char.isDigit then none
    else
      some (((s.1.foldl (fun a c => a * 10 + (c.toNat - 48)) 0 : ℕ) : ℚ)
        + ((fp.foldl (fun a c => a * 10 + (c.toNat - 48)) 0 : ℕ) : ℚ) / (10 : ℚ) ^ fp.length)

/-- Signed decimal exponent of a float literal. -/
def parseExpPart (cs : List Char) : Option ℤ :=
  match cs with
  | '+' :: ds => (parseDigits ds).map (fun n => (n : ℤ))
  | '-' :: ds => (parseDigits ds).map (fun n => -(n : ℤ))
  | ds => (parseDigits ds).map (fun n => (n : ℤ))

/-- Unsigned Python float literal, with optional exponent part. -/
def pyFloatCore (cs : List Char) : Option ℚ :=
  let s := splitAtChar (fun c => c == 'e' || c == 'E') cs
  match s.2 with
  | none => parseMantissa s.1
  | some ecs =>
    match parseMantissa s.1, parseExpPart ecs with
    | some m, some e => some (m * (10 : ℚ) ^ e)
    | _, _ => none

/-- Python `float(s)` on finite decimal literals. -/
def pyFloat (s : String) : Option ℚ :=
  match trimChars s.data with
  | '+' :: cs => pyFloatCore cs
  | '-' :: cs => (pyFloatCore cs).map Neg.neg
  | cs => pyFloatCore cs

/-- Proleptic Gregorian leap year, as Python's `datetime`. -/
def isLeap (y : ℤ) : Bool := y % 4 == 0 && (y % 100 != 0 || y % 400 == 0)

/-- Number of days in a month. -/
def daysInMonth (y m : ℤ) : ℤ :=
  if m = 2 then (if isLeap y then 29 else 28)
  else if m = 4 ∨ m = 6 ∨ m = 9 ∨ m = 11 then 30
  else 31

/-- Day count since 1970-01-01 of a civil date (standard civil-from-days
algorithm, floor divisions). -/
def civilToDays (y m d : ℤ) : ℤ :=
  let yy := y - (if m ≤ 2 then 1 else 0)
  let era := Int.ediv yy 400
  let yoe := yy - era * 400
  let mp := m + (if 2 < m then -3 else 9)
  let doy := Int.ediv (153 * mp + 2) 5 + d - 1
  let doe := yoe * 365 + Int.ediv yoe 4 - Int.ediv yoe 100 + doy
  era * 146097 + doe - 719468

/-- Civil date (year, month, day) of a day count since 1970-01-01. -/
def daysToCivil (z : ℤ) : ℤ × ℤ × ℤ :=
  let z2 := z + 719468
  let era := Int.ediv z2 146097
  let doe := z2 - era * 146097
  let yoe := Int.ediv (doe - Int.ediv doe 1460 + Int.ediv doe 36524 - Int.ediv doe 146096) 365
  let y := yoe + era * 400
  let doy := doe - (365 * yoe + Int.ediv yoe 4 - Int.ediv yoe 100)
  let mp := Int.ediv (5 * doy + 2) 153
  let d := doy - Int.ediv (153 * mp + 2) 5 + 1
  let m := mp + (if mp < 10 then 3 else -9)
  (y + (if m ≤ 2 then 1 else 0), m, d)

/-- Take up to two leading decimal digits (a 1-2 digit `strptime` field). -/
def take2Digits : List Char → Option (ℤ × List Char)
  | c1 :: c2 :: cs =>
    if c1.isDigit then
      if c2.isDigit then
        some ((((c1.toNat - 48) * 10 + (c2.toNat - 48) : ℕ) : ℤ), cs)
      else some (((c1.toNat - 48 : ℕ) : ℤ), c2 :: cs)
    else none
  | [c1] => if c1.isDigit then some (((c1.toNat - 48 : ℕ) : ℤ), []) else none
  | [] => none

/-- Take exactly four decimal digits (the `%Y` field). -/
def take4Digits : List Char → Option (ℤ × List Char)
  | c1 :: c2 :: c3 :: c4 :: cs =>
    if c1.isDigit && c2.isDigit && c3.isDigit && c4.isDigit then
      some ((((c1.toNat - 48) * 1000 + (c2.toNat - 48) * 100
        + (c3.toNat - 48) * 10 + (c4.toNat - 48) : ℕ) : ℤ), cs)
    else none
  | _ => none

/-- Expect a literal character. -/
def expectChar (c : Char) : List Char → Option (List Char)
  | x :: xs => if x = c then some xs else none
  | [] => none

/-- One or more whitespace characters (a blank inside a `strptime` format). -/
def skipWs1 : List Char → Option (List Char)
  | x :: xs => if x.isWhitespace then some (xs.dropWhile Char.isWhitespace) else none
  | [] => none

/-- `datetime.strptime(s, "%d/%m/%Y")` as a day count; `none` on failure
(which the callers catch). -/
def strptimeDate (s : String) : Option ℤ := do
  let p1 ← take2Digits s.toList
  let c1 ← expectChar '/' p1.2
  let p2 ← take2Digits c1
  let c2 ← expectChar '/' p2.2
  let p3 ← take4Digits c2
  if p3.2 = [] ∧ 1 ≤ p1.1 ∧ 1 ≤ p2.1 ∧ p2.1 ≤ 12 ∧ 1 ≤ p3.1 ∧ p1.1 ≤ daysInMonth p3.1 p2.1 then
    some (civilToDays p3.1 p2.1 p1.1)
  else none

/-- `strptime(s, "%d/%m/%Y %H:%M")` (as used through
`pd.to_datetime(..., format=...)`) as minutes since 1970-01-01. -/
def strptimeDT (s : String) : Option ℤ := do
  let p1 ← take2Digits s.toList
  let c1 ← expectChar '/' p1.2
  let p2 ← take2Digits c1
  let c2 ← expectChar '/' p2.2
  let p3 ← take4Digits c2
  let c3 ← skipWs1 p3.2
  let p4 ← take2Digits c3
  let c4 ← expectChar ':' p4.2
  let p5 ← take2Digits c4
  if p5.2 = [] ∧ 1 ≤ p1.1 ∧ 1 ≤ p2.1 ∧ p2.1 ≤ 12 ∧ 1 ≤ p3.1
      ∧ p1.1 ≤ daysInMonth p3.1 p2.1 ∧ p4.1 ≤ 23 ∧ p5.1 ≤ 59 then
    some (civilToDays p3.1 p2.1 p1.1 * 1440 + p4.1 * 60 + p5.1)
  else none

/-- Zero-pad to two digits. -/
def pad2 (n : ℤ) : String :=
  if n < 10 then "0" ++ toString n.toNat else toString n.toNat

/-- Zero-pad a year to four digits. -/
def pad4 (n : ℤ) : String :=
  if n < 10 then "000" ++ toString n.toNat
  else if n < 100 then "00" ++ toString n.toNat
  else if n < 1000 then "0" ++ toString n.toNat
  else toString n.toNat

/-- `strftime("%d/%m/%Y")` of a day count. -/
def strftimeDate (day : ℤ) : String :=
  let c := daysToCivil day
  pad2 c.2.2 ++ "/" ++ pad2 c.2.1 ++ "/" ++ pad4 c.1

/-- `strftime("%d/%m/%Y %H:%M")` of a minute count. -/
def strftimeDT (mins : ℤ) : String :=
  strftimeDate (Int.ediv mins 1440) ++ " "
    ++ pad2 (Int.ediv (Int.emod mins 1440) 60) ++ ":" ++ pad2 (Int.emod (Int.emod mins 1440) 60)

/-- One parsed record: a row of the DataFrame built by `parse_csv_content`.
`feels_like` models the optional column added later by
`create_time_series_plots` / `export_data`; the parser leaves it absent. -/
structure Row where
  dt : ℤ
  sample_size : ℤ
  temperature : ℚ
  pressure : ℚ
  humidity : Option ℚ
  feels_like : Option ℚ
deriving DecidableEq, Repr

/-- A row before the whole-column `pd.to_datetime` conversion: the datetime
field is still the raw string. -/
structure PreRow where
  dtStr : String
  sample_size : ℤ
  temperature : ℚ
  pressure : ℚ
  humidity : Option ℚ
deriving DecidableEq, Repr

/-- A DataFrame: rows in positional order plus the pandas index labels
(`iloc` is positional; `Series.idxmin` returns a label). -/
structure Df where
  rows : List Row
  index : List ℕ
deriving DecidableEq, Repr

/-- The empty DataFrame (`pd.DataFrame()`). -/
def Df.empty : Df := ⟨[], []⟩

/-- The data lines of a blob: `content.strip().split('\n')`, dropping blank
lines and lines starting with the recognized header text, stripping each kept
line (environmental_plotter.py:350-357). -/
def dataLines (content : String) : List String :=
  (pySplit (pyStrip content) (Char.ofNat 10)).filterMap (fun l =>
    if pyStrip l ≠ "" ∧ ¬ pyStartsWith l "Date,Sample" then some (pyStrip l) else none)

/-- The absent-humidity markers (`humidity_str.upper() in ['N/A', 'NA', '']`). -/
def isNaMarker (s : String) : Bool :=
  pyUpper s == "N/A" || pyUpper s == "NA" || pyUpper s == ""

/-- One line of `parse_csv_content` (environmental_plotter.py:367-398): at
least four comma-separated fields; integer sample size, float temperature and
pressure (a failing parse raises `ValueError`, caught per line, discarding the
line).  A fifth field is the humidity: an absent marker or a failing float
parse yields an absent humidity, never a line failure. -/
def parseLine (l : String) : Option PreRow :=
  let parts := pySplit l ','
  if 4 ≤ parts.length then
    match pyInt (pyStrip (parts.getD 1 "")), pyFloat (pyStrip (parts.getD 2 "")),
      pyFloat (pyStrip (parts.getD 3 "")) with
    | some ss, some t, some p =>
      some ⟨pyStrip (parts.getD 0 ""), ss, t, p,
        match parts.get? 4 with
        | some h5 => if isNaMarker (pyStrip h5) then none else pyFloat (pyStrip h5)
        | none => none⟩
    | _, _, _ => none
  else none

/-- The successfully parsed pre-rows of a blob, in line order. -/
def preRowsOf (content : String) : List PreRow :=
  (dataLines content).filterMap parseLine

/-- The whole-column `pd.to_datetime(df['datetime'], format=...)` step
(environmental_plotter.py:405): every datetime string must parse, otherwise
the conversion raises (and the surrounding handler returns an empty
DataFrame). -/
def finishRows : List PreRow → Option (List Row)
  | [] => some []
  | p :: ps =>
    match strptimeDT p.dtStr, finishRows ps with
    | some m, some rs =>
      some (⟨m, p.sample_size, p.temperature, p.pressure, p.humidity, none⟩ :: rs)
    | _, _ => none

/-- `parse_csv_content` (environmental_plotter.py:345-412).  Total: all
failures are caught and produce an empty DataFrame, never an exception. -/
def parse_csv_content (content : String) : Df :=
  if dataLines content = [] then Df.empty
  else if preRowsOf content = [] then Df.empty
  else
    match finishRows (preRowsOf content) with
    | none => Df.empty
    | some rs => ⟨rs, List.range rs.length⟩

/-- Stable insertion keyed on the timestamp, used to model
`df.sort_values('datetime')`; the index label travels with its row. -/
def insertByDt (p : Row × ℕ) : List (Row × ℕ) → List (Row × ℕ)
  | [] => [p]
  | q :: qs => if p.1.dt ≤ q.1.dt then p :: q :: qs else q :: insertByDt p qs

/-- `df.sort_values('datetime')` (environmental_plotter.py:485,491,587,608):
rows reordered by timestamp; pandas keeps the existing index labels. -/
def sortValues (df : Df) : Df :=
  let sorted := (df.rows.zip df.index).foldr insertByDt []
  ⟨sorted.map Prod.fst, sorted.map Prod.snd⟩

/-- `pd.concat(dfs, ignore_index=True)` (environmental_plotter.py:484,490):
rows concatenated, fresh identity index. -/
def concatIgnoreIndex (dfs : List Df) : Df :=
  let rs := (dfs.map Df.rows).join
  ⟨rs, List.range rs.length⟩

/-- `calculate_heat_index` (plot_canvas.py:214-233).  `sq` stands for the
Python `x ** 0.5`. -/
def calculate_heat_index (sq : ℚ → ℚ) (temp_c : ℚ) (humidity : Option ℚ) : ℚ :=
  match humidity with
  | none => temp_c
  | some hum =>
    let temp_f := temp_c * 9 / 5 + 32
    if temp_f < 80 then temp_c
    else
      let T := temp_f
      let R := hum
      let HI := -42.379 + 2.04901523 * T + 10.14333127 * R - 0.22475541 * T * R
        - 6.83783e-3 * T * T - 5.481717e-2 * R * R + 1.22874e-3 * T * T * R
        + 8.5282e-4 * T * R * R - 1.99e-6 * T * T * R * R
      let HI2 :=
        if R < 13 ∧ 80 ≤ T ∧ T ≤ 112 then
          HI - ((13 - R) / 4) * sq ((17 - |T - 95|) / 17)
        else if R > 85 ∧ 80 ≤ T ∧ T ≤ 87 then
          HI + ((R - 85) / 10) * ((87 - T) / 5)
        else HI
      (HI2 - 32) * 5 / 9

/-- The Rothfusz regression polynomial alone (used to state the
unconditional-branch shape of `calculate_heat_index`). -/
def rothfuszF (T R : ℚ) : ℚ :=
  -42.379 + 2.04901523 * T + 10.14333127 * R - 0.22475541 * T * R
    - 6.83783e-3 * T * T - 5.481717e-2 * R * R + 1.22874e-3 * T * T * R
    + 8.5282e-4 * T * R * R - 1.99e-6 * T * T * R * R

/-- The heat index as section 4.3 of the specification words it: the two
range adjustments applied as independent sequential conditionals instead of
the implementation's if/elif chain.  Defined only to be compared with
`calculate_heat_index`. -/
def heat_index_spec_indep (sq : ℚ → ℚ) (temp_c : ℚ) (humidity : Option ℚ) : ℚ :=
  match humidity with
  | none => temp_c
  | some hum =>
    let temp_f := temp_c * 9 / 5 + 32
    if temp_f < 80 then temp_c
    else
      let T := temp_f
      let R := hum
      let HI := rothfuszF T R
      let HI2 :=
        if R < 13 ∧ 80 ≤ T ∧ T ≤ 112 then
          HI - ((13 - R) / 4) * sq ((17 - |T - 95|) / 17)
        else HI
      let HI3 :=
        if R > 85 ∧ 80 ≤ T ∧ T ≤ 87 then
          HI2 + ((R - 85) / 10) * ((87 - T) / 5)
        else HI2
      (HI3 - 32) * 5 / 9

/-- Stable insertion of a rational into a sorted list. -/
def insertQ (x : ℚ) : List ℚ → List ℚ
  | [] => [x]
  | y :: ys => if x ≤ y then x :: y :: ys else y :: insertQ x ys

/-- Insertion sort of rationals. -/
def sortQ (l : List ℚ) : List ℚ := l.foldr insertQ []

/-- Median of the present values of a rolling window (pandas convention:
mean of the two middle values for an even count).  The empty case is
unreachable through `apply_smoothing` (`min_periods=1`). -/
def medianQ (l : List ℚ) : ℚ :=
  let s := sortQ l
  let n := s.length
  if n = 0 then 0
  else if n % 2 = 1 then s.getD (n / 2) 0
  else (s.getD (n / 2 - 1) 0 + s.getD (n / 2) 0) / 2

/-- Mean of the present values of a rolling window. -/
def meanQ (l : List ℚ) : ℚ := l.sum / (l.length : ℚ)

/-- ASCII lowercase of one character. -/
def lowChar (c : Char) : Char :=
  if 65 ≤ c.toNat ∧ c.toNat ≤ 90 then Char.ofNat (c.toNat + 32) else c

/-- Python `s.lower()` (the data here is ASCII). -/
def pyLower (s : String) : String := String.mk (s.data.map lowChar)

/-- `method.lower() == "median"` selects the median, anything else the mean
(plot_canvas.py:244-247). -/
def aggOf (method : String) : List ℚ → ℚ :=
  if pyLower method == "median" then medianQ else meanQ

/-- Positions covered by a centered rolling window of size `w` at output
position `i` in a column of length `n` (pandas `rolling(w, center=True)`:
the window reaches `(w-1)/2` back and `w/2` forward, clipped to the column). -/
def rollingWindow (w n i : ℕ) : List ℕ :=
  List.range' (i - (w - 1) / 2) (min (n - 1) (i + w / 2) + 1 - (i - (w - 1) / 2))

/-- Centered rolling aggregation over a float64 column with no missing
values (temperature and pressure as produced by the parser, and the humidity
column when every humidity parsed; `min_periods=1` only matters at the
clipped, never-empty edge windows). -/
def rollingFull (agg : List ℚ → ℚ) (w : ℕ) (xs : List ℚ) : List ℚ :=
  (List.range xs.length).map (fun i =>
    agg ((rollingWindow w xs.length i).filterMap (fun j => xs.get? j)))

/-- Reassemble rows with smoothed temperature, pressure and humidity columns;
all other columns keep their original values. -/
def rebuildRows : List Row → List ℚ → List ℚ → List (Option ℚ) → List Row
  | r :: rs, t :: ts, p :: ps, h :: hs =>
    { r with temperature := t, pressure := p, humidity := h } :: rebuildRows rs ts ps hs
  | _, _, _, _ => []

/-- `apply_smoothing` (plot_canvas.py:236-248): identity for `window <= 1`;
otherwise a copy of the frame with the three numeric channels replaced by
their centered rolling aggregate.  The parser stores an absent humidity as
`pd.NA`, which makes the whole humidity column object dtype, and
`Series.rolling(...).median()/.mean()` raises `TypeError` on an object
column; the exception escapes `apply_smoothing` (there is no handler in it),
so a frame containing any absent humidity yields no result (`none`) for
`window >= 2` - the partially written copy is discarded unobserved, the
input frame is untouched.  When every humidity is present the column is
float64 and all three channels aggregate normally (`r.humidity.getD 0` below
never takes its fallback: the guard has excluded absent values). -/
def apply_smoothing (df : Df) (window : ℕ) (method : String) : Option Df :=
  if window ≤ 1 then some df
  else if df.rows.any (fun r => r.humidity.isNone) then none
  else
    let agg := aggOf method
    let ts := rollingFull agg window (df.rows.map Row.temperature)
    let ps := rollingFull agg window (df.rows.map Row.pressure)
    let hs := rollingFull agg window (df.rows.map (fun r => r.humidity.getD 0))
    some ⟨rebuildRows df.rows ts ps (hs.map some), df.index⟩

/-- First position of the minimum of a list, given a running best. -/
def argminAux : List ℚ → ℕ → ℚ → ℕ → ℕ
  | [], _, _, best => best
  | x :: xs, i, bv, best =>
    if x < bv then argminAux xs (i + 1) x i else argminAux xs (i + 1) bv best

/-- `Series.idxmin` on an identity-labelled series: position of the first
occurrence of the minimum. -/
def argminPos : List ℚ → ℕ
  | [] => 0
  | x :: xs => argminAux xs 1 x 0

/-- The nearest-sample lookup of `on_hover` (plot_canvas.py:111-124).
`time_diffs.idxmin()` returns the index LABEL of the first minimal distance,
but both `self.current_df.iloc[...]` and `time_diffs.iloc[...]` then use that
label as a POSITION; an out-of-range label would raise `IndexError`, caught
by the handler (no annotation).  Distances are in minutes; the tolerance is
2 hours. -/
def hoverSelect (df : Df) (cx : ℚ) : Option Row :=
  match df.rows with
  | [] => none
  | _ :: _ =>
    let diffs := df.rows.map (fun r => |(r.dt : ℚ) - cx|)
    let lbl := df.index.getD (argminPos diffs) 0
    match df.rows.get? lbl, diffs.get? lbl with
    | some cp, some dl => if dl > 120 then none else some cp
    | _, _ => none

/-- The four chart panels (2x2 grid or the corresponding single view). -/
inductive Panel where
  | temp | humidity | pressure | feelsLike
deriving DecidableEq, Repr

/-- The y-value the hover handler displays for the chosen sample on a panel;
`none` is a `pd.NA` display value (absent humidity on the humidity panel). -/
def displayY : Panel → Row → Option ℚ
  | Panel.temp, r => some r.temperature
  | Panel.humidity, r => r.humidity
  | Panel.pressure, r => some r.pressure
  | Panel.feelsLike, r =>
    some (match r.feels_like with | some v => v | none => r.temperature)

/-- Tooltip offset choice of `on_hover` (plot_canvas.py:176-198): relative
position of the CHOSEN POINT (its timestamp on x, its displayed value on y)
within the axis bounds; beyond 0.7 the label flips to the left / below. -/
def tooltip_offset (xlim ylim : ℚ × ℚ) (px py : ℚ) : ℤ × ℤ :=
  let xr := (px - xlim.1) / (xlim.2 - xlim.1)
  let xo : ℤ := if xr > 7 / 10 then -120 else 20
  let yo : ℤ := if (py - ylim.1) / (ylim.2 - ylim.1) > 7 / 10 then -40 else 40
  (xo, yo)

/-- The full hover handler on one panel: nearest-sample selection followed by
tooltip placement.  `cy` (the cursor's y data coordinate) is only
None-checked by the code and never used afterwards.  When the display value
is `pd.NA` (absent humidity on the humidity panel), `y_rel` is `NA` and
`if y_rel > 0.7:` raises `TypeError` (truth value of `NA` is ambiguous),
which the handler's `except` swallows before `ax.annotate` runs: no label is
produced, even though the annotation text had been built. -/
def on_hover (panel : Panel) (df : Df) (cx cy : ℚ) (xlim ylim : ℚ × ℚ) :
    Option (Row × ℤ × ℤ) :=
  match hoverSelect df cx with
  | none => none
  | some r =>
    match displayY panel r with
    | none => none
    | some y => some (r, tooltip_offset xlim ylim (r.dt : ℚ) y)

/-- Outcome of `generate_plot` (environmental_plotter.py:414-528). -/
inductive PlotResult where
  | selectionError
  | dateError
  | plotError
  | noData
  | success (indoor : Df) (outdoor : Option Df)
deriving DecidableEq, Repr

/-- Calendar days from `a` to `b` inclusive (the `while current_dt <= end_dt`
walk). -/
def daysRange (a b : ℤ) : List ℤ :=
  (List.range (b + 1 - a).toNat).map (fun i => a + i)

/-- `date_str in cache` / `cache[date_str]` on the date-keyed dict. -/
def lookupKey (cache : List (String × String)) (k : String) : Option String :=
  (cache.find? (fun p => p.1 == k)).map Prod.snd

/-- `df = parse_csv_content(content); if not df.empty: append(df)`. -/
def nonEmptyParse (content : String) : Option Df :=
  let df := parse_csv_content content
  if df.rows = [] then none else some df

/-- `generate_plot` (environmental_plotter.py:414-528): empty selection check,
date parsing (failure is caught as a plot error), range validation BEFORE any
cache access, per-day parsing over the indoor-keyed dates, no-data check on
the indoor result, and combination+sort of both series.  An empty outdoor
collection is not an error: the outdoor argument is simply `None`. -/
def generate_plot (cacheIn cacheOut : List (String × String))
    (start_date end_date : String) : PlotResult :=
  if start_date = "" ∨ end_date = "" then PlotResult.selectionError
  else
    match strptimeDate start_date, strptimeDate end_date with
    | some sd, some ed =>
      if ed < sd then PlotResult.dateError
      else
        let dates_to_process :=
          ((daysRange sd ed).map strftimeDate).filter (fun ds => (lookupKey cacheIn ds).isSome)
        let indoor := dates_to_process.filterMap (fun ds => (lookupKey cacheIn ds).bind nonEmptyParse)
        let outdoor := dates_to_process.filterMap (fun ds => (lookupKey cacheOut ds).bind nonEmptyParse)
        if indoor = [] then PlotResult.noData
        else
          PlotResult.success (sortValues (concatIgnoreIndex indoor))
            (if outdoor = [] then none else some (sortValues (concatIgnoreIndex outdoor)))
    | _, _ => PlotResult.plotError

/-- One exported indoor row (environmental_plotter.py:598-603): formatted
Date/Time key plus the indoor columns and the derived feels-like value. -/
structure ExpRow where
  key : String
  sample_size : ℤ
  temperature : ℚ
  pressure : ℚ
  humidity : Option ℚ
  feels_like : ℚ
deriving DecidableEq, Repr

/-- One outdoor row as prepared for the merge (environmental_plotter.py:611). -/
structure ORow where
  key : String
  temperature : ℚ
  pressure : ℚ
deriving DecidableEq, Repr

/-- One row of the exported table: the indoor part and, when matched, an
outdoor part (`NaN`-filled outdoor columns are `none`). -/
structure MergedRow where
  indoor : ExpRow
  outdoor : Option ORow
deriving DecidableEq, Repr

/-- `pd.merge(export_df, outdoor_export, on='Date/Time', how='left')`
(environmental_plotter.py:614): every left row produces one output row per
matching right row (in right order), or a single row with missing outdoor
columns when nothing matches; unmatched right rows are dropped. -/
def leftMerge (L : List ExpRow) (R : List ORow) : List MergedRow :=
  (L.map (fun l =>
    let ms := R.filter (fun r => r.key == l.key)
    if ms = [] then [MergedRow.mk l none]
    else ms.map (fun m => MergedRow.mk l (some m)))).join

/-- Outcome of `export_data` (environmental_plotter.py:530-627). -/
inductive ExportResult where
  | selectionError
  | exportError
  | noData
  | success (table : List MergedRow)
deriving DecidableEq, Repr

/-- `export_data` (environmental_plotter.py:530-627): empty-selection check,
date parsing (failure caught as an export error) - note the code only PARSES
the two dates and, despite its comment, never compares them - per-day parsing
over every day of the walk, no-data check on the indoor result, feels-like
derivation, and the left merge with the outdoor rows when any exist. -/
def export_data (sq : ℚ → ℚ) (cacheIn cacheOut : List (String × String))
    (start_date end_date : String) : ExportResult :=
  if start_date = "" ∨ end_date = "" then ExportResult.selectionError
  else
    match strptimeDate start_date, strptimeDate end_date with
    | some sd, some ed =>
      let days := daysRange sd ed
      let indoor := days.filterMap (fun day => (lookupKey cacheIn (strftimeDate day)).bind nonEmptyParse)
      let outdoor := days.filterMap (fun day => (lookupKey cacheOut (strftimeDate day)).bind nonEmptyParse)
      if indoor = [] then ExportResult.noData
      else
        let ci := sortValues (concatIgnoreIndex indoor)
        let L := ci.rows.map (fun r =>
          ExpRow.mk (strftimeDT r.dt) r.sample_size r.temperature r.pressure r.humidity
            (calculate_heat_index sq r.temperature r.humidity))
        if outdoor = [] then ExportResult.success (L.map (fun l => MergedRow.mk l none))
        else
          let co := sortValues (concatIgnoreIndex outdoor)
          ExportResult.success
            (leftMerge L (co.rows.map (fun r => ORow.mk (strftimeDT r.dt) r.temperature r.pressure)))
    | _, _ => ExportResult.exportError

/-! ## Claim C4: heat-index branch structure and concrete values -/

/-- C4.  `calculate_heat_index` returns the temperature unchanged for an
absent humidity and below the 80 F threshold, otherwise the Rothfusz
regression with its two range-conditioned adjustments converted back to
Celsius; in particular `heatIndex(25, absent) = 25`,
`heatIndex(20, 50) = 20` and `heatIndex(35, 80) > 35`. -/
theorem heat_index_branches (sq : ℚ → ℚ) (t : ℚ) (hum : Option ℚ) :
    (hum = none → calculate_heat_index sq t hum = t) ∧
    (t * 9 / 5 + 32 < 80 → calculate_heat_index sq t hum = t) ∧
    (∀ R, hum = some R → ¬ (t * 9 / 5 + 32 < 80) →
      calculate_heat_index sq t hum =
        ((if R < 13 ∧ 80 ≤ t * 9 / 5 + 32 ∧ t * 9 / 5 + 32 ≤ 112 then
            rothfuszF (t * 9 / 5 + 32) R
              - ((13 - R) / 4) * sq ((17 - |t * 9 / 5 + 32 - 95|) / 17)
          else if R > 85 ∧ 80 ≤ t * 9 / 5 + 32 ∧ t * 9 / 5 + 32 ≤ 87 then
            rothfuszF (t * 9 / 5 + 32) R + ((R - 85) / 10) * ((87 - (t * 9 / 5 + 32)) / 5)
          else rothfuszF (t * 9 / 5 + 32) R) - 32) * 5 / 9) ∧
    calculate_heat_index sq 25 none = 25 ∧
    calculate_heat_index sq 20 (some 50) = 20 ∧
    35 < calculate_heat_index sq 35 (some 80) := by
  refine ⟨?_, ?_, ?_, rfl, ?_, ?_⟩
  · rintro rfl; rfl
  · intro hF
    cases hum with
    | none => rfl
    | some R => simp only [calculate_heat_index]; rw [if_pos hF]
  · rintro R rfl hF
    simp only [calculate_heat_index, rothfuszF]
    rw [if_neg hF]
  · simp only [calculate_heat_index]
    norm_num
  · simp only [calculate_heat_index]
    norm_num

/-- Witness for C4 at concrete inputs, discharging each hypothesis. -/
theorem heat_index_branches_holds :
    calculate_heat_index id 25 none = 25 ∧
    calculate_heat_index id 20 (some 50) = 20 ∧
    calculate_heat_index id 35 (some 80) = (rothfuszF 95 80 - 32) * 5 / 9 ∧
    35 < calculate_heat_index id 35 (some 80) := by
  refine ⟨(heat_index_branches id 25 none).1 rfl,
    (heat_index_branches id 20 (some 50)).2.1 (by norm_num), ?_,
    (heat_index_branches id 35 (some 80)).2.2.2.2.2⟩
  have h := (heat_index_branches id 35 (some 80)).2.2.1 80 rfl (by norm_num)
  rw [h]
  norm_num

/-! ## Claim C10: the two heat-index adjustments are mutually exclusive -/

/-- C10.  The condition of the first adjustment (`R < 13`, `80 <= F <= 112`)
and of the second (`R > 85`, `80 <= F <= 87`) can never hold together, so the
implementation's if/elif chain computes the same result as the
specification's two independent conditionals. -/
theorem heat_index_elif_equiv (sq : ℚ → ℚ) (t R : ℚ) :
    ¬ ((R < 13 ∧ 80 ≤ t * 9 / 5 + 32 ∧ t * 9 / 5 + 32 ≤ 112) ∧
       (R > 85 ∧ 80 ≤ t * 9 / 5 + 32 ∧ t * 9 / 5 + 32 ≤ 87)) ∧
    calculate_heat_index sq t (some R) = heat_index_spec_indep sq t (some R) := by
  constructor
  · rintro ⟨⟨h1, -⟩, ⟨h2, -⟩⟩; linarith
  · simp only [calculate_heat_index, heat_index_spec_indep, rothfuszF]
    by_cases hF : t * 9 / 5 + 32 < 80
    · rw [if_pos hF, if_pos hF]
    · rw [if_neg hF, if_neg hF]
      by_cases h1 : R < 13 ∧ 80 ≤ t * 9 / 5 + 32 ∧ t * 9 / 5 + 32 ≤ 112
      · rw [if_pos h1, if_pos h1, if_neg (by rintro ⟨h2, -⟩; linarith [h1.1])]
      · rw [if_neg h1, if_neg h1]

/-! ## Claim C6: range validation of the two selection operations -/

/-- C6, failing input evaluated: `export_data`, unlike `generate_plot`,
never compares the two parsed dates (its comment says "Validate date range"
but the code only parses them), so a start date strictly after the end date
silently walks an empty day range and reports the no-data condition instead
of a validation error - for every cache content and humidity model. -/
theorem export_missing_range_validation (sq : ℚ → ℚ)
    (cacheIn cacheOut : List (String × String)) :
    export_data sq cacheIn cacheOut "02/01/2024" "01/01/2024" = ExportResult.noData := rfl

/-! ## Claim C1: hover lookup -/

/-- Indoor cache whose single blob holds two in-tolerance samples in
descending timestamp order. -/
def c1CacheIn : List (String × String) :=
  [("01/01/2024", "01/01/2024 02:00,1,20.0,1000.0\n01/01/2024 01:00,1,21.0,1001.0")]

/-- The indoor DataFrame `generate_plot` builds from `c1CacheIn`: rows sorted
by timestamp, index labels left permuted by `sort_values`. -/
def c1Df : Df :=
  ⟨[⟨28401180, 1, 21, 1001, none, none⟩, ⟨28401240, 1, 20, 1000, none, none⟩], [1, 0]⟩

/-- C1, failing input evaluated.  Hovering exactly on the 01:00 sample
(minute 28401180 of the epoch, distance zero) makes the `on_hover` lookup
return the 02:00 sample at distance one hour: `idxmin` yields the index LABEL
of the closest row but `iloc` consumes it as a POSITION, and after
`sort_values` (which keeps labels) the two disagree, so the
minimum-distance sample is not the one selected. -/
theorem hover_idxmin_iloc_mismatch :
    generate_plot c1CacheIn [] "01/01/2024" "01/01/2024" = PlotResult.success c1Df none ∧
    hoverSelect c1Df 28401180 = some ⟨28401240, 1, 20, 1000, none, none⟩ ∧
    c1Df.rows.getD 0 ⟨0, 0, 0, 0, none, none⟩ = ⟨28401180, 1, 21, 1001, none, none⟩ := by
  refine ⟨by decide, by decide, by decide⟩

/-! ## Claim C2: per-line parser behavior -/

/-- A blob whose first line is fully well formed and whose second line has an
unparsable datetime (the numeric fields of both lines parse). -/
def c2Content : String := "01/01/2024 00:00,1,20.0,1000.0,50.0\nbad,1,21.0,1001.0"

/-- C2, counterexample.  The per-line loop only validates the numeric fields;
`pd.to_datetime` then runs on the WHOLE column and its failure is caught by
the outer handler, which returns an empty DataFrame.  So one bad datetime
line does not merely lose that line: the fully well-formed first line is
discarded too, against the claim that every fully-parsing line contributes a
sample. -/
theorem good_line_lost_on_bad_datetime :
    parse_csv_content c2Content = Df.empty ∧
    parseLine "01/01/2024 00:00,1,20.0,1000.0,50.0" =
      some ⟨"01/01/2024 00:00", 1, 20, 1000, some 50⟩ ∧
    strptimeDT "01/01/2024 00:00" = some 28401120 := by
  refine ⟨by decide, by decide, by decide⟩

/-! ## Claim C3: the parser does not sort -/

/-- A blob with two valid lines in descending timestamp order. -/
def c3Content : String := "01/01/2024 02:00,1,20.0,1000.0\n01/01/2024 01:00,1,21.0,1001.0"

/-- C3, counterexample.  `parse_csv_content` keeps the input line order and
performs no sort, so out-of-order input yields an unsorted Series. -/
theorem parse_output_not_sorted :
    (parse_csv_content c3Content).rows.map Row.dt = [28401240, 28401180] ∧
    ¬ ((parse_csv_content c3Content).rows.map Row.dt).Pairwise (fun a b => a ≤ b) := by
  refine ⟨by decide, by decide⟩

/-! ## Claim C7: export left join -/

/-- Indoor cache with one sample. -/
def c7CacheIn : List (String × String) :=
  [("01/01/2024", "01/01/2024 00:00,1,20.0,1000.0,50.0")]

/-- Outdoor cache with two samples at the same minute (duplicate timestamps
are permitted and not deduplicated). -/
def c7CacheOut : List (String × String) :=
  [("01/01/2024", "01/01/2024 00:00,1,15.0,1005.0\n01/01/2024 00:00,2,16.0,1006.0")]

/-- The single indoor export row of `c7CacheIn` (68 F is below the heat-index
threshold, so feels-like equals the temperature). -/
def c7IndoorRow : ExpRow := ⟨"01/01/2024 00:00", 1, 20, 1000, some 50, 20⟩

/-- C7, counterexample.  `pd.merge(..., how='left')` emits one row per
matching pair, so two outdoor rows sharing the indoor row's Date/Time yield a
two-row export from a one-sample indoor series - not "exactly one row per
indoor sample". -/
theorem export_duplicate_outdoor_rows :
    export_data id c7CacheIn c7CacheOut "01/01/2024" "01/01/2024" =
      ExportResult.success
        [⟨c7IndoorRow, some ⟨"01/01/2024 00:00", 15, 1005⟩⟩,
         ⟨c7IndoorRow, some ⟨"01/01/2024 00:00", 16, 1006⟩⟩] ∧
    (parse_csv_content "01/01/2024 00:00,1,20.0,1000.0,50.0").rows.length = 1 := by
  refine ⟨by decide, by decide⟩

/-! ## Claim C8: tooltip placement -/

/-- One-sample frame: the sample sits at relative position 0.5 on both axes
of the window used below. -/
def c8Df : Df := ⟨[⟨100, 1, 10, 1000, some 50, none⟩], [0]⟩

/-- C8, counterexample.  With the cursor in the right 30 percent and top 30
percent of the visible window (relative x = 0.8, relative y = 0.95) but the
chosen sample at relative 0.5 on both axes, the label is still placed with
the default right/above offset (20, 40): the code derives the offsets from
the SAMPLE's coordinates, not the cursor's as the claim states. -/
theorem hover_offset_ignores_cursor :
    on_hover Panel.temp c8Df 160 19 (0, 200) (0, 20) =
      some (⟨100, 1, 10, 1000, some 50, none⟩, 20, 40) ∧
    (160 - 0) / (200 - 0) > (7 : ℚ) / 10 ∧
    (19 - 0) / (20 - 0) > (7 : ℚ) / 10 := by
  refine ⟨by decide, by decide, by decide⟩

/-- C8, amended.  Whenever the hover handler produces a label, the selected
sample's display value on the panel is a present number, and the tooltip
offsets are chosen from the relative position of the SELECTED SAMPLE (its
timestamp on the x axis, that displayed value on the y axis) within the
visible bounds - left of the point beyond 0.7 on x, below beyond 0.7 on y -
rather than from the cursor position the claim describes.  (A `pd.NA`
display value never reaches placement: the handler swallows the `TypeError`
and produces no label.) -/
theorem hover_offset_from_point (panel : Panel) (df : Df) (cx cy : ℚ)
    (xlim ylim : ℚ × ℚ) (r : Row) (xo yo : ℤ)
    (h : on_hover panel df cx cy xlim ylim = some (r, xo, yo)) :
    ∃ y, displayY panel r = some y ∧
      xo = (if ((r.dt : ℚ) - xlim.1) / (xlim.2 - xlim.1) > 7 / 10 then -120 else 20) ∧
      yo = (if (y - ylim.1) / (ylim.2 - ylim.1) > 7 / 10 then (-40 : ℤ) else 40) := by
  unfold on_hover at h
  split at h
  · cases h
  · split at h
    · cases h
    · rename_i y hdy
      simp only [Option.some.injEq, Prod.mk.injEq] at h
      obtain ⟨rfl, htt⟩ := h
      simp only [tooltip_offset, Prod.mk.injEq] at htt
      exact ⟨y, hdy, htt.1.symm, htt.2.symm⟩

/-- Witness for C8's amended theorem at the concrete hover of
`hover_offset_ignores_cursor`. -/
theorem hover_offset_from_point_holds :
    ∃ y, displayY Panel.temp ⟨100, 1, 10, 1000, some 50, none⟩ = some y ∧
      (20 : ℤ) = (if (((100 : ℤ) : ℚ) - 0) / (200 - 0) > 7 / 10 then -120 else 20) ∧
      (40 : ℤ) = (if (y - 0) / (20 - 0) > 7 / 10 then (-40 : ℤ) else 40) :=
  hover_offset_from_point Panel.temp c8Df 160 19 (0, 200) (0, 20)
    ⟨100, 1, 10, 1000, some 50, none⟩ 20 40 (by decide)

/-- Unfolding of `leftMerge` on a cons. -/
lemma leftMerge_cons (l : ExpRow) (L : List ExpRow) (R : List ORow) :
    leftMerge (l :: L) R =
      (if R.filter (fun r => r.key == l.key) = [] then [MergedRow.mk l none]
       else (R.filter (fun r => r.key == l.key)).map (fun m => MergedRow.mk l (some m)))
        ++ leftMerge L R := by
  simp [leftMerge]

/-- When every indoor key matches at most one outdoor row, the merge output
restricted to its indoor part is exactly the indoor table. -/
lemma leftMerge_map_indoor (L : List ExpRow) (R : List ORow)
    (huniq : ∀ l ∈ L, (R.filter (fun r => r.key == l.key)).length ≤ 1) :
    (leftMerge L R).map MergedRow.indoor = L := by
  induction L with
  | nil => rfl
  | cons l L ih =>
    rw [leftMerge_cons, List.map_append,
      ih (fun x hx => huniq x (List.mem_cons_of_mem _ hx))]
    have hl := huniq l (List.mem_cons_self _ _)
    rcases hfl : R.filter (fun r => r.key == l.key) with _ | ⟨m, ms⟩
    · simp [hfl]
    · rw [hfl] at hl
      cases ms with
      | nil => simp [hfl]
      | cons a as => simp at hl

/-- Outdoor values only ever appear attached to an indoor row whose Date/Time
equals theirs (so unmatched outdoor rows are dropped). -/
lemma leftMerge_outdoor_matched (L : List ExpRow) (R : List ORow) :
    ∀ m ∈ leftMerge L R, ∀ o, m.outdoor = some o → o ∈ R ∧ o.key = m.indoor.key := by
  induction L with
  | nil => intro m hm; simp [leftMerge] at hm
  | cons l L ih =>
    intro m hm o ho
    rw [leftMerge_cons] at hm
    rcases List.mem_append.mp hm with hm1 | hm2
    · by_cases hfl : R.filter (fun r => r.key == l.key) = []
      · rw [if_pos hfl] at hm1
        simp at hm1
        subst hm1
        simp at ho
      · rw [if_neg hfl] at hm1
        obtain ⟨mo, hmo, rfl⟩ := List.mem_map.mp hm1
        simp only [MergedRow.outdoor, Option.some.injEq] at ho
        subst ho
        have hmem := List.mem_filter.mp hmo
        exact ⟨hmem.1, by simpa using hmem.2⟩
    · exact ih m hm2 o ho

/-- An indoor row with no outdoor match appears with empty outdoor columns. -/
lemma leftMerge_unmatched (L : List ExpRow) (R : List ORow) :
    ∀ l ∈ L, R.filter (fun r => r.key == l.key) = [] →
      MergedRow.mk l none ∈ leftMerge L R := by
  induction L with
  | nil => intro l hl; simp at hl
  | cons a L ih =>
    intro l hl hfl
    rw [leftMerge_cons]
    rcases List.mem_cons.mp hl with rfl | h
    · exact List.mem_append_left _ (by rw [if_pos hfl]; simp)
    · exact List.mem_append_right _ (ih l h hfl)

/-- C7, amended.  The export merge is a left join keyed on the indoor rows:
when no Date/Time matches more than one outdoor row there is exactly one
output row per indoor sample (in indoor order); outdoor values only appear
against an indoor row with the same Date/Time, so unmatched outdoor rows are
dropped; and an indoor row without a match keeps empty outdoor columns.
(With duplicate outdoor Date/Times an indoor row is repeated once per match -
see the counterexample.) -/
theorem left_join_keyed_on_indoor (L : List ExpRow) (R : List ORow)
    (huniq : ∀ l ∈ L, (R.filter (fun r => r.key == l.key)).length ≤ 1) :
    (leftMerge L R).map MergedRow.indoor = L ∧
    (∀ m ∈ leftMerge L R, ∀ o, m.outdoor = some o → o ∈ R ∧ o.key = m.indoor.key) ∧
    (∀ l ∈ L, R.filter (fun r => r.key == l.key) = [] →
      MergedRow.mk l none ∈ leftMerge L R) :=
  ⟨leftMerge_map_indoor L R huniq, leftMerge_outdoor_matched L R, leftMerge_unmatched L R⟩

/-- Witness for C7's amended theorem on a concrete one-row join with an
unmatched outdoor row. -/
theorem left_join_keyed_on_indoor_holds :
    (leftMerge [c7IndoorRow] [⟨"02/01/2024 00:00", 15, 1005⟩]).map MergedRow.indoor
      = [c7IndoorRow] :=
  (left_join_keyed_on_indoor [c7IndoorRow] [⟨"02/01/2024 00:00", 15, 1005⟩] (by decide)).1

/-- Elements of an insertion are the inserted element or old elements. -/
lemma mem_insertByDt {p x : Row × ℕ} : ∀ {l}, x ∈ insertByDt p l → x = p ∨ x ∈ l := by
  intro l
  induction l with
  | nil => intro h; simp only [insertByDt] at h; simpa using h
  | cons q qs ih =>
    intro h
    simp only [insertByDt] at h
    split at h
    · exact List.mem_cons.mp h
    · rcases List.mem_cons.mp h with h1 | h2
      · exact Or.inr (h1 ▸ List.mem_cons_self _ _)
      · rcases ih h2 with h3 | h4
        · exact Or.inl h3
        · exact Or.inr (List.mem_cons_of_mem _ h4)

/-- Insertion keyed on the timestamp preserves sortedness. -/
lemma pairwise_insertByDt (p : Row × ℕ) :
    ∀ {l}, l.Pairwise (fun a b : Row × ℕ => a.1.dt ≤ b.1.dt) →
      (insertByDt p l).Pairwise (fun a b : Row × ℕ => a.1.dt ≤ b.1.dt) := by
  intro l
  induction l with
  | nil => intro _; simp [insertByDt]
  | cons q qs ih =>
    intro h
    obtain ⟨hq, hqs⟩ := List.pairwise_cons.mp h
    simp only [insertByDt]
    split
    case isTrue hle =>
      refine List.pairwise_cons.mpr ⟨?_, h⟩
      intro x hx
      rcases List.mem_cons.mp hx with rfl | hmem
      · exact hle
      · exact le_trans hle (hq x hmem)
    case isFalse hgt =>
      refine List.pairwise_cons.mpr ⟨?_, ih hqs⟩
      intro x hx
      rcases mem_insertByDt hx with rfl | hmem
      · exact le_of_not_le hgt
      · exact hq x hmem

/-- The insertion sort underlying `sortValues` produces a timestamp-sorted
pair list. -/
lemma foldr_insertByDt_pairwise (ps : List (Row × ℕ)) :
    (ps.foldr insertByDt []).Pairwise (fun a b : Row × ℕ => a.1.dt ≤ b.1.dt) := by
  induction ps with
  | nil => exact List.Pairwise.nil
  | cons p ps ih => exact pairwise_insertByDt p ih

/-- When the whole-column datetime conversion succeeds, `parse_csv_content`
returns exactly those rows, in line order - the parser performs no sort. -/
lemma parse_rows_of_finish (content : String) (rs : List Row)
    (h : finishRows (preRowsOf content) = some rs) :
    (parse_csv_content content).rows = rs := by
  unfold parse_csv_content
  by_cases h1 : dataLines content = []
  · rw [if_pos h1]
    have h0 : preRowsOf content = [] := by simp [preRowsOf, h1]
    rw [h0] at h
    simp only [finishRows, Option.some.injEq] at h
    rw [← h]
    rfl
  · rw [if_neg h1]
    by_cases h2 : preRowsOf content = []
    · rw [if_pos h2]
      rw [h2] at h
      simp only [finishRows, Option.some.injEq] at h
      rw [← h]
      rfl
    · rw [if_neg h2, h]

/-- C3, amended.  The sort by timestamp happens in the range-selection stage
(`sort_values` after concatenation, modelled by `sortValues`), whose output
is always sorted ascending; the parser itself returns its rows in input line
order without sorting, so its result is sorted only when the input lines
already are (see the counterexample). -/
theorem sorting_deferred_to_selection :
    (∀ df : Df, (sortValues df).rows.Pairwise (fun a b : Row => a.dt ≤ b.dt)) ∧
    (∀ content rs, finishRows (preRowsOf content) = some rs →
      (parse_csv_content content).rows = rs) := by
  constructor
  · intro df
    unfold sortValues
    rw [List.pairwise_map]
    exact foldr_insertByDt_pairwise _
  · exact parse_rows_of_finish

/-- The two rows of `c3Content`, in line order. -/
def c3Rows : List Row :=
  [⟨28401240, 1, 20, 1000, none, none⟩, ⟨28401180, 1, 21, 1001, none, none⟩]

/-- Witness for C3's amended theorem at a concrete frame and blob. -/
theorem sorting_deferred_to_selection_holds :
    (sortValues ⟨c3Rows, [0, 1]⟩).rows.Pairwise (fun a b : Row => a.dt ≤ b.dt) ∧
    (parse_csv_content c3Content).rows = c3Rows :=
  ⟨sorting_deferred_to_selection.1 ⟨c3Rows, [0, 1]⟩,
   sorting_deferred_to_selection.2 c3Content c3Rows (by decide)⟩

/-- When the whole-column datetime conversion raises, the handler returns the
empty DataFrame (all lines lost, but no exception escapes). -/
lemma parse_empty_of_finish_none (content : String)
    (h : finishRows (preRowsOf content) = none) :
    parse_csv_content content = Df.empty := by
  unfold parse_csv_content
  by_cases h1 : dataLines content = []
  · rw [if_pos h1]
  · rw [if_neg h1]
    by_cases h2 : preRowsOf content = []
    · rw [if_pos h2]
    · rw [if_neg h2, h]

/-- C2, amended.  `parse_csv_content` never raises; per line: fewer than four
comma-separated fields discards the line, a failing integer/float parse of
the numeric fields discards the line, a fifth field that is an absent marker
(case-insensitive N/A, NA, empty) or any other non-float text yields an
absent humidity without discarding the line, and a line whose four field
parses succeed contributes exactly one pre-row with those values.  The
DATETIME field however is converted for the whole column at once: when every
kept line's datetime parses the result is exactly the pre-rows in order, but
a single failing datetime empties the whole result (see the counterexample),
not just the offending line. -/
theorem parse_line_semantics :
    (∀ l : String, (pySplit l ',').length < 4 → parseLine l = none) ∧
    (∀ l pre, parseLine l = some pre → ∀ h5, (pySplit l ',').get? 4 = some h5 →
      (isNaMarker (pyStrip h5) = true ∨ pyFloat (pyStrip h5) = none) →
      pre.humidity = none) ∧
    (∀ l ss t p, 4 ≤ (pySplit l ',').length →
      pyInt (pyStrip ((pySplit l ',').getD 1 "")) = some ss →
      pyFloat (pyStrip ((pySplit l ',').getD 2 "")) = some t →
      pyFloat (pyStrip ((pySplit l ',').getD 3 "")) = some p →
      ∃ hum, parseLine l = some ⟨pyStrip ((pySplit l ',').getD 0 ""), ss, t, p, hum⟩) ∧
    (∀ content, finishRows (preRowsOf content) = none →
      parse_csv_content content = Df.empty) ∧
    (∀ content rs, finishRows (preRowsOf content) = some rs →
      (parse_csv_content content).rows = rs) := by
  refine ⟨?_, ?_, ?_, parse_empty_of_finish_none, parse_rows_of_finish⟩
  · intro l h
    simp only [parseLine]
    rw [if_neg (by omega)]
  · intro l pre hpre h5 hh5 hna
    obtain ⟨hlt, -⟩ := List.get?_eq_some.mp hh5
    simp only [parseLine] at hpre
    rw [if_pos (le_of_lt hlt)] at hpre
    rcases hss : pyInt (pyStrip ((pySplit l ',').getD 1 "")) with _ | ss <;> rw [hss] at hpre
    · cases hpre
    rcases ht : pyFloat (pyStrip ((pySplit l ',').getD 2 "")) with _ | t <;> rw [ht] at hpre
    · cases hpre
    rcases hp : pyFloat (pyStrip ((pySplit l ',').getD 3 "")) with _ | p <;> rw [hp] at hpre
    · cases hpre
    rw [hh5] at hpre
    simp only [Option.some.injEq] at hpre
    subst hpre
    rcases hna with hna | hna
    · simp [hna]
    · by_cases hm : isNaMarker (pyStrip h5) = true
      · simp [hm]
      · simp only [PreRow.humidity]
        rw [if_neg (by simpa using hm)]
        exact hna
  · intro l ss t p hlen hss ht hp
    simp only [parseLine]
    rw [if_pos hlen, hss, ht, hp]
    exact ⟨_, rfl⟩

/-- Witness for C2's amended theorem, each hypothesis discharged at concrete
lines and blobs. -/
theorem parse_line_semantics_holds :
    parseLine "a,b" = none ∧
    (⟨"01/01/2024 00:00", 1, 20, 1000, none⟩ : PreRow).humidity = none ∧
    (∃ hum, parseLine "01/01/2024 00:00,1,20.0,1000.0,50.0" =
      some ⟨"01/01/2024 00:00", 1, 20, 1000, hum⟩) ∧
    parse_csv_content c2Content = Df.empty ∧
    (parse_csv_content "01/01/2024 00:00,1,20.0,1000.0,50.0").rows =
      [⟨28401120, 1, 20, 1000, some 50, none⟩] := by
  refine ⟨parse_line_semantics.1 "a,b" (by decide),
    parse_line_semantics.2.1 "01/01/2024 00:00,1,20.0,1000.0,N/A"
      ⟨"01/01/2024 00:00", 1, 20, 1000, none⟩ (by decide) "N/A" (by decide)
      (Or.inl (by decide)),
    parse_line_semantics.2.2.1 "01/01/2024 00:00,1,20.0,1000.0,50.0" 1 20 1000
      (by decide) (by decide) (by decide) (by decide),
    parse_line_semantics.2.2.2.1 c2Content (by decide),
    parse_line_semantics.2.2.2.2 "01/01/2024 00:00,1,20.0,1000.0,50.0"
      [⟨28401120, 1, 20, 1000, some 50, none⟩] (by decide)⟩

/-- A rolling aggregation does not change the column length. -/
lemma length_rollingFull (agg : List ℚ → ℚ) (w : ℕ) (xs : List ℚ) :
    (rollingFull agg w xs).length = xs.length := by
  simp [rollingFull]

/-- Reassembling rows with equal-length smoothed columns keeps the length and
every column other than the three smoothed ones, and installs the given
humidity column. -/
lemma rebuildRows_spec :
    ∀ (rs : List Row) (ts ps : List ℚ) (hs : List (Option ℚ)),
      rs.length = ts.length → rs.length = ps.length → rs.length = hs.length →
      (rebuildRows rs ts ps hs).length = rs.length ∧
      (rebuildRows rs ts ps hs).map Row.dt = rs.map Row.dt ∧
      (rebuildRows rs ts ps hs).map Row.sample_size = rs.map Row.sample_size ∧
      (rebuildRows rs ts ps hs).map Row.feels_like = rs.map Row.feels_like ∧
      (rebuildRows rs ts ps hs).map Row.humidity = hs := by
  intro rs
  induction rs with
  | nil =>
    intro ts ps hs h1 h2 h3
    cases hs with
    | nil => simp [rebuildRows]
    | cons h hs => simp at h3
  | cons r rs ih =>
    intro ts ps hs h1 h2 h3
    cases ts with
    | nil => simp at h1
    | cons t ts =>
      cases ps with
      | nil => simp at h2
      | cons p ps =>
        cases hs with
        | nil => simp at h3
        | cons h hs =>
          have hrec := ih ts ps hs (by simpa using h1) (by simpa using h2) (by simpa using h3)
          simp only [rebuildRows, List.length_cons, List.map_cons]
          exact ⟨by rw [hrec.1], by rw [hrec.2.1], by rw [hrec.2.2.1],
            by rw [hrec.2.2.2.1], by rw [hrec.2.2.2.2]⟩

/-- Blob in the outdoor format (no humidity field): every parsed row has an
absent (`pd.NA`) humidity. -/
def c5OutContent : String := "01/01/2024 00:00,1,15.0,1005.0\n01/01/2024 00:30,2,16.0,1006.0"

/-- A two-sample frame whose humidity values are all present (a float64
column), which smooths normally. -/
def c5FullDf : Df :=
  ⟨[⟨0, 1, 10, 1000, some 40, none⟩, ⟨60, 2, 20, 1002, some 60, none⟩], [0, 1]⟩

/-- C5, failing input evaluated.  The parser stores an absent humidity as
`pd.NA`, so any frame containing one - every outdoor frame, for instance -
carries an object-dtype humidity column, and `Series.rolling(window,
min_periods=1, center=True).median()/.mean()` raises `TypeError` on it for
`window >= 2`.  The exception escapes `apply_smoothing`: no smoothed series
exists at all, so neither the claimed shape preservation nor the
absent-windows-stay-absent aggregation ever happens for such series.  The
`window <= 1` identity does hold, and frames whose humidity is fully present
smooth normally. -/
theorem smoothing_raises_on_absent_humidity :
    (parse_csv_content c5OutContent).rows.map Row.humidity = [none, none] ∧
    apply_smoothing (parse_csv_content c5OutContent) 3 "median" = none ∧
    apply_smoothing (parse_csv_content c5OutContent) 1 "median" =
      some (parse_csv_content c5OutContent) ∧
    (apply_smoothing c5FullDf 3 "median").isSome = true := by
  refine ⟨by decide, by decide, by decide, by decide⟩

/-- One-row frame with an absent humidity, for the C9 counterexample. -/
def c9NaDf : Df := ⟨[⟨0, 1, 10, 1000, none, none⟩], [0]⟩

/-- C9, counterexample.  For a frame holding an absent humidity and a window
above one, the rolling aggregation raises on the object-dtype column and
`apply_smoothing` produces no result frame at all - so there exists no
result whose columns could equal the input's, against the claim's
universally quantified reading. -/
theorem smoothing_absent_humidity_no_frame :
    apply_smoothing c9NaDf 2 "mean" = none := by decide

/-- C9, amended.  `apply_smoothing` never mutates its input (the embedding is
a pure function; on the raising path only the discarded internal copy was
written); and whenever it RETURNS a frame - `window <= 1`, or `window >= 2`
with a fully present humidity column - the datetime, sample-size and
feels-like columns and the index of the result equal their values in the
input. -/
theorem smoothing_untouched_columns (df : Df) (w : ℕ) (method : String) (out : Df)
    (h : apply_smoothing df w method = some out) :
    out.rows.map Row.dt = df.rows.map Row.dt ∧
    out.rows.map Row.sample_size = df.rows.map Row.sample_size ∧
    out.rows.map Row.feels_like = df.rows.map Row.feels_like ∧
    out.index = df.index := by
  by_cases hw : w ≤ 1
  · have heq : apply_smoothing df w method = some df := by
      unfold apply_smoothing
      rw [if_pos hw]
    rw [heq] at h
    injection h with h2
    subst h2
    exact ⟨rfl, rfl, rfl, rfl⟩
  · by_cases hna : df.rows.any (fun r => r.humidity.isNone)
    · have heq : apply_smoothing df w method = none := by
        unfold apply_smoothing
        rw [if_neg hw, if_pos hna]
      rw [heq] at h
      cases h
    · have heq : apply_smoothing df w method =
          some ⟨rebuildRows df.rows
            (rollingFull (aggOf method) w (df.rows.map Row.temperature))
            (rollingFull (aggOf method) w (df.rows.map Row.pressure))
            ((rollingFull (aggOf method) w
              (df.rows.map (fun r => r.humidity.getD 0))).map some), df.index⟩ := by
        unfold apply_smoothing
        rw [if_neg hw, if_neg hna]
      rw [heq] at h
      injection h with h2
      subst h2
      have hspec := rebuildRows_spec df.rows
        (rollingFull (aggOf method) w (df.rows.map Row.temperature))
        (rollingFull (aggOf method) w (df.rows.map Row.pressure))
        ((rollingFull (aggOf method) w
          (df.rows.map (fun r => r.humidity.getD 0))).map some)
        (by rw [length_rollingFull, List.length_map])
        (by rw [length_rollingFull, List.length_map])
        (by rw [List.length_map, length_rollingFull, List.length_map])
      exact ⟨hspec.2.1, hspec.2.2.1, hspec.2.2.2.1, rfl⟩

/-- A fully-present-humidity frame and its window-3 median smoothing, for the
C9 witness. -/
def c9FullDf : Df :=
  ⟨[⟨0, 1, 10, 1000, some 40, none⟩, ⟨60, 2, 20, 1002, some 60, none⟩], [0, 1]⟩

/-- The frame `apply_smoothing c9FullDf 3 "median"` returns. -/
def c9Out : Df :=
  ⟨[⟨0, 1, 15, 1001, some 50, none⟩, ⟨60, 2, 15, 1001, some 50, none⟩], [0, 1]⟩

/-- Witness for C9's amended theorem at a concrete smoothing that returns a
frame. -/
theorem smoothing_untouched_columns_holds :
    c9Out.rows.map Row.dt = c9FullDf.rows.map Row.dt ∧
    c9Out.rows.map Row.sample_size = c9FullDf.rows.map Row.sample_size ∧
    c9Out.rows.map Row.feels_like = c9FullDf.rows.map Row.feels_like ∧
    c9Out.index = c9FullDf.index :=
  smoothing_untouched_columns c9FullDf 3 "median" c9Out (by decide)
